import Mathlib

/-!
Verification of the run-analytics core of a dbt observability dashboard.

The source builds SQL queries (Snowflake) inside thin Python service
functions.  We embed the reduction logic of those queries shallowly:

* a table slice is a `List` of row structures (the list order models the
  engine's scan order, which matters for `ROW_NUMBER` ties);
* `WHERE ts >= DATEADD(day, -days, CURRENT_TIMESTAMP())` becomes a filter
  against an abstract `cutoff : Int`;
* SQL numeric expressions are modelled exactly over `Rat`;
* `ROW_NUMBER() OVER (PARTITION BY id ORDER BY ts DESC) = 1` becomes a
  fold that keeps the first-scanned row among rows with maximal `ts`;
* fallible fetches (`database.run_query` and the page helpers that wrap
  it in try/except) are modelled with `Except`.
-/

set_option autoImplicit false

namespace DbtObs

/-! ### Data model (section 3 of the spec; column subsets of the
`elementary_test_results`, `dbt_run_results` and `ROW_COUNT_LOG` tables) -/

/-- Status domain of `elementary_test_results.status`. -/
inductive TStatus where
  | pass
  | warn
  | fail
  | error
  deriving DecidableEq, Repr

/-- Status domain of `dbt_run_results.status`. -/
inductive MStatus where
  | success
  | fail
  | error
  | skipped
  deriving DecidableEq, Repr

/-- A row of `elementary_test_results` (columns used by the analytics). -/
structure TestRun where
  test_unique_id : String
  test_name : String
  table_name : String
  schema_name : String
  status : TStatus
  detected_at : Int
  deriving DecidableEq, Repr

/-- A row of `dbt_run_results` (columns used by the analytics). -/
structure ModelRun where
  unique_id : String
  resource_type : String
  status : MStatus
  execution_time : Option Rat
  generated_at : Int
  deriving DecidableEq, Repr

/-- A row of `ROW_COUNT_LOG` (columns used by the growth page). -/
structure RowCountRow where
  model_name : String
  database_name : String
  schema_name : String
  row_count : Int
  run_started_at : Int
  deriving DecidableEq, Repr

/-- `WHERE r.detected_at >= DATEADD(day, -days, CURRENT_TIMESTAMP())`. -/
def windowTest (cutoff : Int) (rows : List TestRun) : List TestRun :=
  rows.filter (fun r => decide (cutoff ≤ r.detected_at))

/-- `WHERE r.generated_at >= DATEADD(...) AND r.resource_type = 'model'`. -/
def windowModel (cutoff : Int) (rows : List ModelRun) : List ModelRun :=
  rows.filter (fun r => decide (cutoff ≤ r.generated_at) && (r.resource_type == "model"))

/-- `WHERE run_started_at >= DATEADD(day, -days, CURRENT_TIMESTAMP())`. -/
def windowRowCounts (cutoff : Int) (rows : List RowCountRow) : List RowCountRow :=
  rows.filter (fun r => decide (cutoff ≤ r.run_started_at))

/-! ### Status Resolver (`alerts_service.py`)

`ROW_NUMBER() OVER (PARTITION BY id ORDER BY ts DESC)` with the rank-1
filter keeps, per partition, a row of maximal `ts`.  The `ORDER BY` has no
tiebreak, so among equal timestamps the surviving row is whichever the
engine scans first; we model the scan order by the list order and keep the
first-scanned row among ties. -/

/-- Scan the remaining rows, keeping the best-so-far; a strictly larger
timestamp replaces it, a tie keeps the earlier-scanned row. -/
def rank1Go {α : Type} (ts : α → Int) (b : α) : List α → α
  | [] => b
  | r :: rs => rank1Go ts (if ts b < ts r then r else b) rs

/-- The row that gets `rn = 1` under `ORDER BY ts DESC`, for one scan order. -/
def rank1Desc {α : Type} (ts : α → Int) : List α → Option α
  | [] => none
  | x :: xs => some (rank1Go ts x xs)

/-- The row that gets `rn = 1` under `ORDER BY ts ASC`, for one scan order. -/
def rank1AscGo {α : Type} (ts : α → Int) (b : α) : List α → α
  | [] => b
  | r :: rs => rank1AscGo ts (if ts r < ts b then r else b) rs

/-- Rank-1 row of the ascending ranking (used by the growth `earliest` CTE). -/
def rank1Asc {α : Type} (ts : α → Int) : List α → Option α
  | [] => none
  | x :: xs => some (rank1AscGo ts x xs)

/-- The in-window rows of one test (the partition of `test_unique_id`). -/
def testRowsFor (cutoff : Int) (rows : List TestRun) (eid : String) : List TestRun :=
  (windowTest cutoff rows).filter (fun r => r.test_unique_id == eid)

/-- The in-window model-run rows of one model (the partition of `unique_id`). -/
def modelRowsFor (cutoff : Int) (rows : List ModelRun) (eid : String) : List ModelRun :=
  (windowModel cutoff rows).filter (fun r => r.unique_id == eid)

/-- The `rn = 1` row of the `ranked` CTE of `get_current_test_failures`. -/
def latestTestRecord (cutoff : Int) (rows : List TestRun) (eid : String) : Option TestRun :=
  rank1Desc (fun r => r.detected_at) (testRowsFor cutoff rows eid)

/-- The `rn = 1` row of the `ranked` CTE of `get_current_model_failures`. -/
def latestModelRecord (cutoff : Int) (rows : List ModelRun) (eid : String) : Option ModelRun :=
  rank1Desc (fun r => r.generated_at) (modelRowsFor cutoff rows eid)

/-- `status IN ('fail', 'error')` for test rows. -/
def isFailOrError (r : TestRun) : Bool :=
  r.status == TStatus.fail || r.status == TStatus.error

/-- `status IN ('fail', 'error')` for model rows. -/
def isModelFailOrError (r : ModelRun) : Bool :=
  r.status == MStatus.fail || r.status == MStatus.error

/-- Membership of a test in the result of `get_current_test_failures`
(`WHERE r.rn = 1 AND r.status IN ('fail', 'error')`). -/
def isCurrentlyFailingTest (cutoff : Int) (rows : List TestRun) (eid : String) : Bool :=
  match latestTestRecord cutoff rows eid with
  | some r => isFailOrError r
  | none => false

/-- Membership of a model in the result of `get_current_model_failures`
(`WHERE rn = 1 AND status IN ('fail', 'error')`). -/
def isCurrentlyFailingModel (cutoff : Int) (rows : List ModelRun) (eid : String) : Bool :=
  match latestModelRecord cutoff rows eid with
  | some r => isModelFailOrError r
  | none => false

/-! ### Generic facts about the rank-1 fold -/

theorem rank1Go_mem {α : Type} (ts : α → Int) (l : List α) :
    ∀ b : α, rank1Go ts b l ∈ b :: l := by
  induction l with
  | nil => intro b; simp [rank1Go]
  | cons r rs ih =>
    intro b
    by_cases hbr : ts b < ts r
    · have h' := ih r
      rw [List.mem_cons] at h'
      rcases h' with h' | h'
      · rw [rank1Go, if_pos hbr, h']
        exact List.mem_cons_of_mem _ (List.mem_cons_self _ _)
      · rw [rank1Go, if_pos hbr]
        exact List.mem_cons_of_mem _ (List.mem_cons_of_mem _ h')
    · have h' := ih b
      rw [List.mem_cons] at h'
      rcases h' with h' | h'
      · rw [rank1Go, if_neg hbr, h']
        exact List.mem_cons_self _ _
      · rw [rank1Go, if_neg hbr]
        exact List.mem_cons_of_mem _ (List.mem_cons_of_mem _ h')

theorem rank1Go_le {α : Type} (ts : α → Int) (l : List α) :
    ∀ b : α, ∀ x ∈ b :: l, ts x ≤ ts (rank1Go ts b l) := by
  induction l with
  | nil =>
    intro b x hx
    rw [List.mem_singleton] at hx
    subst hx
    exact le_refl _
  | cons r rs ih =>
    intro b x hx
    have hhead : ts (if ts b < ts r then r else b) ≤
        ts (rank1Go ts (if ts b < ts r then r else b) rs) :=
      ih _ _ (List.mem_cons_self _ _)
    have hb : ts b ≤ ts (if ts b < ts r then r else b) := by
      by_cases hbr : ts b < ts r
      · rw [if_pos hbr]; exact le_of_lt hbr
      · rw [if_neg hbr]
    have hr : ts r ≤ ts (if ts b < ts r then r else b) := by
      by_cases hbr : ts b < ts r
      · rw [if_pos hbr]
      · rw [if_neg hbr]; exact le_of_not_lt hbr
    rw [List.mem_cons] at hx
    rcases hx with rfl | hx
    · rw [rank1Go]
      exact le_trans hb hhead
    · rw [List.mem_cons] at hx
      rcases hx with rfl | hx
      · rw [rank1Go]
        exact le_trans hr hhead
      · rw [rank1Go]
        exact ih _ _ (List.mem_cons_of_mem _ hx)

theorem rank1Desc_eq_none {α : Type} (ts : α → Int) (l : List α) :
    rank1Desc ts l = none ↔ l = [] := by
  cases l with
  | nil => simp [rank1Desc]
  | cons x xs => simp [rank1Desc]

theorem rank1Desc_mem {α : Type} (ts : α → Int) (l : List α) (m : α)
    (h : rank1Desc ts l = some m) : m ∈ l := by
  cases l with
  | nil => simp [rank1Desc] at h
  | cons x xs =>
    rw [rank1Desc, Option.some_inj] at h
    rw [← h]
    exact rank1Go_mem ts xs x

theorem rank1Desc_le {α : Type} (ts : α → Int) (l : List α) (m : α)
    (h : rank1Desc ts l = some m) : ∀ x ∈ l, ts x ≤ ts m := by
  cases l with
  | nil => intro x hx; cases hx
  | cons y ys =>
    intro x hx
    rw [rank1Desc, Option.some_inj] at h
    rw [← h]
    exact rank1Go_le ts ys y x hx

/-- When one row strictly dominates all others of its partition, the
rank-1 row is that row, whatever the scan order did on the rest. -/
theorem rank1Desc_eq_of_strict_max {α : Type} (ts : α → Int) (l : List α) (m : α)
    (hm : m ∈ l) (hmax : ∀ x ∈ l, x = m ∨ ts x < ts m) :
    rank1Desc ts l = some m := by
  cases hr : rank1Desc ts l with
  | none =>
    rw [rank1Desc_eq_none] at hr
    rw [hr] at hm
    cases hm
  | some m' =>
    have hmem := rank1Desc_mem ts l m' hr
    have hle := rank1Desc_le ts l m' hr m hm
    rcases hmax m' hmem with h | h
    · rw [h]
    · exact absurd hle (not_le.mpr h)

/-! ### Claim C1: current-failure classification is recency-masked -/

/-- C1: a test (and a model) is reported as currently failing if and only if
its in-window record with maximal observed timestamp has status fail or error;
in particular a failure superseded by a later success is not reported.  The
maximality hypothesis is strict because the code's ordering has no tiebreak. -/
theorem currently_failing_iff_latest_failing :
    (∀ (cutoff : Int) (rows : List TestRun) (eid : String) (r : TestRun),
      r ∈ windowTest cutoff rows → r.test_unique_id = eid →
      (∀ r' ∈ windowTest cutoff rows, r'.test_unique_id = eid →
        r' = r ∨ r'.detected_at < r.detected_at) →
      (isCurrentlyFailingTest cutoff rows eid = true ↔
        (r.status = TStatus.fail ∨ r.status = TStatus.error))) ∧
    (∀ (cutoff : Int) (rows : List ModelRun) (eid : String) (r : ModelRun),
      r ∈ windowModel cutoff rows → r.unique_id = eid →
      (∀ r' ∈ windowModel cutoff rows, r'.unique_id = eid →
        r' = r ∨ r'.generated_at < r.generated_at) →
      (isCurrentlyFailingModel cutoff rows eid = true ↔
        (r.status = MStatus.fail ∨ r.status = MStatus.error))) := by
  constructor
  · intro cutoff rows eid r hmem hid hmax
    have hrf : r ∈ testRowsFor cutoff rows eid := by
      rw [testRowsFor, List.mem_filter]
      exact ⟨hmem, by simp [hid]⟩
    have hmax' : ∀ x ∈ testRowsFor cutoff rows eid,
        x = r ∨ x.detected_at < r.detected_at := by
      intro x hx
      rw [testRowsFor, List.mem_filter] at hx
      exact hmax x hx.1 (by simpa using hx.2)
    have hlatest : latestTestRecord cutoff rows eid = some r :=
      rank1Desc_eq_of_strict_max _ _ r hrf hmax'
    rw [isCurrentlyFailingTest, hlatest]
    simp [isFailOrError]
  · intro cutoff rows eid r hmem hid hmax
    have hrf : r ∈ modelRowsFor cutoff rows eid := by
      rw [modelRowsFor, List.mem_filter]
      exact ⟨hmem, by simp [hid]⟩
    have hmax' : ∀ x ∈ modelRowsFor cutoff rows eid,
        x = r ∨ x.generated_at < r.generated_at := by
      intro x hx
      rw [modelRowsFor, List.mem_filter] at hx
      exact hmax x hx.1 (by simpa using hx.2)
    have hlatest : latestModelRecord cutoff rows eid = some r :=
      rank1Desc_eq_of_strict_max _ _ r hrf hmax'
    rw [isCurrentlyFailingModel, hlatest]
    simp [isModelFailOrError]

/-- C1 witness input: entity A fails at time 1 and passes at time 5. -/
def witnessRowFail : TestRun := ⟨"A", "t", "tbl", "sch", TStatus.fail, 1⟩

/-- Later success record of the C1 witness input. -/
def witnessRowPass : TestRun := ⟨"A", "t", "tbl", "sch", TStatus.pass, 5⟩

/-- Record list of the C1 witness input. -/
def witnessRowsC1 : List TestRun := [witnessRowFail, witnessRowPass]

/-- C1 witness: with a failure at time 1 and a success at time 5, entity A is
not reported as a current failure. -/
theorem currently_failing_iff_latest_failing_witness :
    isCurrentlyFailingTest 0 witnessRowsC1 "A" = false := by
  have h := currently_failing_iff_latest_failing.1 0 witnessRowsC1 "A" witnessRowPass
    (by decide) (by decide) (by decide)
  cases hb : isCurrentlyFailingTest 0 witnessRowsC1 "A" with
  | false => rfl
  | true => exact absurd (h.mp hb) (by decide)

/-! ### Claim C8: determinism of the rank-1 resolver under timestamp ties

The `ORDER BY detected_at DESC` inside `ROW_NUMBER` has no tiebreak; the
stored table is an unordered multiset, so an evaluation corresponds to one
scan order (one list arrangement).  Two scan orders of the same multiset are
permutations of each other. -/

/-- Rank-1 selection is scan-order independent when timestamps are distinct
within the scanned rows. -/
theorem rank1Desc_perm {α : Type} (ts : α → Int) (l₁ l₂ : List α)
    (hp : l₁.Perm l₂)
    (hinj : ∀ x ∈ l₁, ∀ y ∈ l₁, ts x = ts y → x = y) :
    rank1Desc ts l₁ = rank1Desc ts l₂ := by
  cases h₁ : rank1Desc ts l₁ with
  | none =>
    rw [rank1Desc_eq_none] at h₁
    subst h₁
    have h2 : l₂ = [] := List.Perm.eq_nil (List.Perm.symm hp)
    rw [h2, rank1Desc]
  | some m₁ =>
    cases h₂ : rank1Desc ts l₂ with
    | none =>
      rw [rank1Desc_eq_none] at h₂
      subst h₂
      have h1 : l₁ = [] := List.Perm.eq_nil hp
      rw [h1] at h₁
      simp [rank1Desc] at h₁
    | some m₂ =>
      have hm₁ : m₁ ∈ l₁ := rank1Desc_mem ts l₁ m₁ h₁
      have hm₂ : m₂ ∈ l₂ := rank1Desc_mem ts l₂ m₂ h₂
      have hm₂₁ : m₂ ∈ l₁ := (List.Perm.mem_iff hp).mpr hm₂
      have hm₁₂ : m₁ ∈ l₂ := (List.Perm.mem_iff hp).mp hm₁
      have hle₁ : ts m₂ ≤ ts m₁ := rank1Desc_le ts l₁ m₁ h₁ m₂ hm₂₁
      have hle₂ : ts m₁ ≤ ts m₂ := rank1Desc_le ts l₂ m₂ h₂ m₁ hm₁₂
      have heq : m₁ = m₂ := hinj m₁ hm₁ m₂ hm₂₁ (le_antisymm hle₂ hle₁)
      rw [heq]

/-- C8 amended: the resolver is a deterministic function of the record multiset
only when each entity's in-window timestamps are distinct; under that
hypothesis any two scan orders yield the same per-entity latest record. -/
theorem latest_record_perm_of_distinct_times :
    ∀ (cutoff : Int) (rows₁ rows₂ : List TestRun) (eid : String),
      rows₁.Perm rows₂ →
      (∀ r ∈ rows₁, ∀ r' ∈ rows₁, r.test_unique_id = eid → r'.test_unique_id = eid →
        r.detected_at = r'.detected_at → r = r') →
      latestTestRecord cutoff rows₁ eid = latestTestRecord cutoff rows₂ eid := by
  intro cutoff rows₁ rows₂ eid hp hinj
  have hpf : (testRowsFor cutoff rows₁ eid).Perm (testRowsFor cutoff rows₂ eid) :=
    List.Perm.filter _ (List.Perm.filter _ hp)
  apply rank1Desc_perm _ _ _ hpf
  intro x hx y hy hts
  rw [testRowsFor, List.mem_filter] at hx hy
  have hx1 : x ∈ rows₁ := List.mem_of_mem_filter hx.1
  have hy1 : y ∈ rows₁ := List.mem_of_mem_filter hy.1
  exact hinj x hx1 y hy1 (by simpa using hx.2) (by simpa using hy.2) hts

/-- One of two same-timestamp records of entity A (a success). -/
def tieRowPass : TestRun := ⟨"A", "t", "tbl", "sch", TStatus.pass, 5⟩

/-- The other same-timestamp record of entity A (a failure). -/
def tieRowFail : TestRun := ⟨"A", "t", "tbl", "sch", TStatus.fail, 5⟩

/-- C8 counterexample: on two records of one entity with equal timestamps, two
scan orders of the same record multiset select different latest records, and
the current-failure classification flips with them; the code's ranking has no
insertion-order tiebreak, so evaluation is not deterministic as claimed. -/
theorem tie_perm_counterexample :
    List.Perm [tieRowPass, tieRowFail] [tieRowFail, tieRowPass] ∧
    latestTestRecord 0 [tieRowPass, tieRowFail] "A" ≠
      latestTestRecord 0 [tieRowFail, tieRowPass] "A" ∧
    isCurrentlyFailingTest 0 [tieRowPass, tieRowFail] "A" = false ∧
    isCurrentlyFailingTest 0 [tieRowFail, tieRowPass] "A" = true := by
  refine ⟨List.Perm.swap _ _ _, ?_, ?_, ?_⟩ <;> decide

/-- Earlier record of the C8 witness input (distinct timestamps). -/
def distinctRowEarly : TestRun := ⟨"A", "t", "tbl", "sch", TStatus.fail, 1⟩

/-- Later record of the C8 witness input (distinct timestamps). -/
def distinctRowLate : TestRun := ⟨"A", "t", "tbl", "sch", TStatus.pass, 5⟩

/-- C8 witness: with distinct timestamps the two scan orders agree. -/
theorem latest_record_perm_of_distinct_times_witness :
    latestTestRecord 0 [distinctRowEarly, distinctRowLate] "A" =
      latestTestRecord 0 [distinctRowLate, distinctRowEarly] "A" :=
  latest_record_perm_of_distinct_times 0 _ _ "A" (List.Perm.swap _ _ _) (by decide)

/-! ### Anomaly Classifier, flaky tests (`tests_service.py`, `config.py`)

`config.FLAKY_TEST_THRESHOLD = 0.2`; SQL numerics are modelled exactly. -/

/-- `config.FLAKY_TEST_THRESHOLD` (0.2). -/
def FLAKY_TEST_THRESHOLD : Rat := 1 / 5

/-- `COUNT(*)` of the in-window partition of one test. -/
def totalRunsTest (cutoff : Int) (rows : List TestRun) (eid : String) : Nat :=
  (testRowsFor cutoff rows eid).length

/-- `SUM(CASE WHEN r.status = 'pass' THEN 1 ELSE 0 END)` over the partition. -/
def passCountTest (cutoff : Int) (rows : List TestRun) (eid : String) : Nat :=
  ((testRowsFor cutoff rows eid).filter (fun r => r.status == TStatus.pass)).length

/-- `SUM(CASE WHEN r.status IN ('fail', 'error') THEN 1 ELSE 0 END)`. -/
def failCountTest (cutoff : Int) (rows : List TestRun) (eid : String) : Nat :=
  ((testRowsFor cutoff rows eid).filter isFailOrError).length

/-- The `GROUP BY test_unique_id, test_name, table_name, schema_name` group of
`get_flaky_tests` that a given row belongs to. -/
def flakyGroupOf (cutoff : Int) (rows : List TestRun) (r0 : TestRun) : List TestRun :=
  (windowTest cutoff rows).filter (fun r =>
    r.test_unique_id == r0.test_unique_id && r.test_name == r0.test_name &&
      r.table_name == r0.table_name && r.schema_name == r0.schema_name)

/-- `HAVING total_runs >= 3` together with
`WHERE s.fail_count::FLOAT / s.total_runs >= FLAKY_TEST_THRESHOLD`. -/
def flakyGroupSelected (g : List TestRun) : Bool :=
  decide (3 ≤ g.length) &&
    decide (FLAKY_TEST_THRESHOLD ≤ ((g.filter isFailOrError).length : Rat) / (g.length : Rat))

/-- Whether a test id appears in the result of `get_flaky_tests` (ignoring the
presentation-only ORDER BY and LIMIT). -/
def selectedByFlakyTests (cutoff : Int) (rows : List TestRun) (eid : String) : Bool :=
  (windowTest cutoff rows).any (fun r =>
    (r.test_unique_id == eid) && flakyGroupSelected (flakyGroupOf cutoff rows r))

/-- The `is_flaky` column of `get_tests_summary`:
`(1 - pass_count::FLOAT / NULLIF(total_runs, 0)) >= FLAKY_TEST_THRESHOLD AND total_runs >= 3`
(partitioned by `test_unique_id` only). -/
def isFlakySummary (cutoff : Int) (rows : List TestRun) (eid : String) : Bool :=
  decide (FLAKY_TEST_THRESHOLD ≤
      1 - (passCountTest cutoff rows eid : Rat) / (totalRunsTest cutoff rows eid : Rat)) &&
    decide (3 ≤ totalRunsTest cutoff rows eid)

/-- Under the data invariant that all records of a test id agree on the display
columns, the four-column group of any of the test's rows is exactly the test's
id partition. -/
theorem flakyGroupOf_eq_testRowsFor (cutoff : Int) (rows : List TestRun) (eid : String)
    (hfd : ∀ r ∈ windowTest cutoff rows, ∀ r' ∈ windowTest cutoff rows,
      r.test_unique_id = eid → r'.test_unique_id = eid →
      r.test_name = r'.test_name ∧ r.table_name = r'.table_name ∧
        r.schema_name = r'.schema_name)
    (r0 : TestRun) (h0 : r0 ∈ windowTest cutoff rows) (hid : r0.test_unique_id = eid) :
    flakyGroupOf cutoff rows r0 = testRowsFor cutoff rows eid := by
  rw [flakyGroupOf, testRowsFor]
  apply List.filter_congr
  intro x hx
  by_cases hxid : x.test_unique_id = eid
  · obtain ⟨hn, ht, hs⟩ := hfd x hx r0 h0 hxid hid
    simp [hxid, hid, hn, ht, hs]
  · have h1 : (x.test_unique_id == eid) = false := beq_eq_false_iff_ne.mpr hxid
    have h2 : (x.test_unique_id == r0.test_unique_id) = false := by rw [hid]; exact h1
    simp [h1, h2]

/-- Characterization of `get_flaky_tests` membership at the entity level,
under the display-column data invariant. -/
theorem selectedByFlakyTests_iff (cutoff : Int) (rows : List TestRun) (eid : String)
    (hfd : ∀ r ∈ windowTest cutoff rows, ∀ r' ∈ windowTest cutoff rows,
      r.test_unique_id = eid → r'.test_unique_id = eid →
      r.test_name = r'.test_name ∧ r.table_name = r'.table_name ∧
        r.schema_name = r'.schema_name) :
    (selectedByFlakyTests cutoff rows eid = true ↔
      (3 ≤ totalRunsTest cutoff rows eid ∧
        FLAKY_TEST_THRESHOLD ≤
          (failCountTest cutoff rows eid : Rat) / (totalRunsTest cutoff rows eid : Rat))) := by
  constructor
  · intro hsel
    rw [selectedByFlakyTests, List.any_eq_true] at hsel
    obtain ⟨r0, h0, hcond⟩ := hsel
    rw [Bool.and_eq_true] at hcond
    have hid : r0.test_unique_id = eid := by simpa using hcond.1
    have hc := hcond.2
    rw [flakyGroupOf_eq_testRowsFor cutoff rows eid hfd r0 h0 hid] at hc
    rw [flakyGroupSelected, Bool.and_eq_true, decide_eq_true_iff, decide_eq_true_iff] at hc
    exact ⟨hc.1, hc.2⟩
  · intro hsel
    obtain ⟨h3, hrate⟩ := hsel
    have hne : testRowsFor cutoff rows eid ≠ [] := by
      intro h0
      rw [totalRunsTest, h0] at h3
      simp at h3
    obtain ⟨r0, hr0⟩ := List.exists_mem_of_ne_nil _ hne
    rw [testRowsFor, List.mem_filter] at hr0
    have hid : r0.test_unique_id = eid := by simpa using hr0.2
    rw [selectedByFlakyTests, List.any_eq_true]
    refine ⟨r0, hr0.1, ?_⟩
    rw [Bool.and_eq_true]
    refine ⟨by simp [hid], ?_⟩
    rw [flakyGroupOf_eq_testRowsFor cutoff rows eid hfd r0 hr0.1 hid,
      flakyGroupSelected, Bool.and_eq_true]
    exact ⟨decide_eq_true h3, decide_eq_true hrate⟩

/-! ### Claim C2: flaky selection threshold and minimum-sample guard -/

/-- C2: a test is selected by `get_flaky_tests` iff its in-window failure rate
(fail and error runs over all runs) is at least 0.2 and it has at least 3 runs;
in particular fewer than 3 runs is never flagged.  The hypothesis is the data
invariant that records of one test id share the display columns that the SQL
additionally groups by. -/
theorem flaky_tests_selection_iff :
    ∀ (cutoff : Int) (rows : List TestRun) (eid : String),
      (∀ r ∈ windowTest cutoff rows, ∀ r' ∈ windowTest cutoff rows,
        r.test_unique_id = eid → r'.test_unique_id = eid →
        r.test_name = r'.test_name ∧ r.table_name = r'.table_name ∧
          r.schema_name = r'.schema_name) →
      ((selectedByFlakyTests cutoff rows eid = true ↔
        (3 ≤ totalRunsTest cutoff rows eid ∧
          FLAKY_TEST_THRESHOLD ≤
            (failCountTest cutoff rows eid : Rat) / (totalRunsTest cutoff rows eid : Rat))) ∧
       (totalRunsTest cutoff rows eid < 3 →
          selectedByFlakyTests cutoff rows eid = false)) := by
  intro cutoff rows eid hfd
  have h := selectedByFlakyTests_iff cutoff rows eid hfd
  refine ⟨h, ?_⟩
  intro hlt
  cases hb : selectedByFlakyTests cutoff rows eid with
  | false => rfl
  | true => exact absurd (h.mp hb).1 (by omega)

/-- C2 witness input: test B with 10 runs, 3 of them failures. -/
def flakyScenarioRows : List TestRun :=
  [⟨"B", "t", "tbl", "sch", TStatus.fail, 1⟩, ⟨"B", "t", "tbl", "sch", TStatus.fail, 2⟩,
   ⟨"B", "t", "tbl", "sch", TStatus.error, 3⟩, ⟨"B", "t", "tbl", "sch", TStatus.pass, 4⟩,
   ⟨"B", "t", "tbl", "sch", TStatus.pass, 5⟩, ⟨"B", "t", "tbl", "sch", TStatus.pass, 6⟩,
   ⟨"B", "t", "tbl", "sch", TStatus.pass, 7⟩, ⟨"B", "t", "tbl", "sch", TStatus.pass, 8⟩,
   ⟨"B", "t", "tbl", "sch", TStatus.pass, 9⟩, ⟨"B", "t", "tbl", "sch", TStatus.pass, 10⟩]

/-- C2 witness: 3 failures out of 10 runs is selected as flaky. -/
theorem flaky_tests_selection_iff_witness :
    selectedByFlakyTests 0 flakyScenarioRows "B" = true := by
  have h := (flaky_tests_selection_iff 0 flakyScenarioRows "B" (by decide)).1
  apply h.mpr
  refine ⟨by decide, ?_⟩
  have h1 : failCountTest 0 flakyScenarioRows "B" = 3 := rfl
  have h2 : totalRunsTest 0 flakyScenarioRows "B" = 10 := rfl
  rw [h1, h2]
  norm_num [FLAKY_TEST_THRESHOLD]

/-! ### Claim C10: the two flaky computations are not equivalent on warn -/

/-- Counting a no-warn list splits it into pass rows and fail-or-error rows. -/
theorem length_eq_pass_add_fail (g : List TestRun)
    (hw : ∀ r ∈ g, r.status ≠ TStatus.warn) :
    g.length = (g.filter (fun r => r.status == TStatus.pass)).length +
      (g.filter isFailOrError).length := by
  induction g with
  | nil => rfl
  | cons r rs ih =>
    have hr := hw r (List.mem_cons_self _ _)
    have ih' := ih (fun x hx => hw x (List.mem_cons_of_mem _ hx))
    cases hs : r.status with
    | pass =>
      simp only [List.length_cons, List.filter_cons, hs, isFailOrError]
      simp only [show (TStatus.pass == TStatus.pass) = true from rfl,
        show (TStatus.pass == TStatus.fail) = false from rfl,
        show (TStatus.pass == TStatus.error) = false from rfl]
      simp
      omega
    | warn => exact absurd hs hr
    | fail =>
      simp only [List.length_cons, List.filter_cons, hs, isFailOrError]
      simp only [show (TStatus.fail == TStatus.pass) = false from rfl,
        show (TStatus.fail == TStatus.fail) = true from rfl]
      simp
      omega
    | error =>
      simp only [List.length_cons, List.filter_cons, hs, isFailOrError]
      simp only [show (TStatus.error == TStatus.pass) = false from rfl,
        show (TStatus.error == TStatus.fail) = false from rfl,
        show (TStatus.error == TStatus.error) = true from rfl]
      simp
      omega

/-- C10 counterexample input: a test with one warn and two passes. -/
def warnScenarioRows : List TestRun :=
  [⟨"t", "n", "tbl", "sch", TStatus.warn, 1⟩, ⟨"t", "n", "tbl", "sch", TStatus.pass, 2⟩,
   ⟨"t", "n", "tbl", "sch", TStatus.pass, 3⟩]

/-- C10 counterexample: on a warn-containing input the `get_tests_summary` flag
(rate `1 - pass/total` counts the warn as non-pass, giving 1/3 >= 0.2) is true
while `get_flaky_tests` (rate `fail/total` = 0 < 0.2) does not select the test,
so the two classifications are not equivalent as claimed. -/
theorem flaky_equivalence_counterexample :
    isFlakySummary 0 warnScenarioRows "t" = true ∧
    selectedByFlakyTests 0 warnScenarioRows "t" = false := by
  have hp : passCountTest 0 warnScenarioRows "t" = 2 := rfl
  have ht : totalRunsTest 0 warnScenarioRows "t" = 3 := rfl
  have hf : failCountTest 0 warnScenarioRows "t" = 0 := rfl
  constructor
  · rw [isFlakySummary, hp, ht]
    simp only [Bool.and_eq_true, decide_eq_true_eq]
    norm_num [FLAKY_TEST_THRESHOLD]
  · have hiff := selectedByFlakyTests_iff 0 warnScenarioRows "t" (by decide)
    cases hb : selectedByFlakyTests 0 warnScenarioRows "t" with
    | false => rfl
    | true =>
      obtain ⟨h3, hrate⟩ := hiff.mp hb
      rw [hf, ht] at hrate
      norm_num [FLAKY_TEST_THRESHOLD] at hrate

/-- C10 amended: the two flaky classifications agree on every record set whose
in-window statuses avoid warn (and that satisfies the display-column data
invariant); with warn records they can diverge. -/
theorem flaky_summary_eq_selection_no_warn :
    ∀ (cutoff : Int) (rows : List TestRun) (eid : String),
      (∀ r ∈ windowTest cutoff rows, ∀ r' ∈ windowTest cutoff rows,
        r.test_unique_id = eid → r'.test_unique_id = eid →
        r.test_name = r'.test_name ∧ r.table_name = r'.table_name ∧
          r.schema_name = r'.schema_name) →
      (∀ r ∈ windowTest cutoff rows, r.status ≠ TStatus.warn) →
      isFlakySummary cutoff rows eid = selectedByFlakyTests cutoff rows eid := by
  intro cutoff rows eid hfd hw
  have hiff := selectedByFlakyTests_iff cutoff rows eid hfd
  have hcnt : totalRunsTest cutoff rows eid =
      passCountTest cutoff rows eid + failCountTest cutoff rows eid := by
    have hw' : ∀ r ∈ testRowsFor cutoff rows eid, r.status ≠ TStatus.warn := by
      intro r hr
      exact hw r (List.mem_of_mem_filter hr)
    exact length_eq_pass_add_fail _ hw'
  by_cases ht : totalRunsTest cutoff rows eid = 0
  · have hL : isFlakySummary cutoff rows eid = false := by
      rw [isFlakySummary]
      have h3 : decide (3 ≤ totalRunsTest cutoff rows eid) = false := by
        rw [decide_eq_false_iff_not]
        omega
      rw [h3, Bool.and_false]
    have hR : selectedByFlakyTests cutoff rows eid = false := by
      cases hb : selectedByFlakyTests cutoff rows eid with
      | false => rfl
      | true => exact absurd (hiff.mp hb).1 (by omega)
    rw [hL, hR]
  · have htQ : ((totalRunsTest cutoff rows eid : Rat)) ≠ 0 :=
      Nat.cast_ne_zero.mpr ht
    have hc2 : ((totalRunsTest cutoff rows eid : Rat)) =
        (passCountTest cutoff rows eid : Rat) + (failCountTest cutoff rows eid : Rat) := by
      exact_mod_cast hcnt
    have key : (1 : Rat) -
        (passCountTest cutoff rows eid : Rat) / (totalRunsTest cutoff rows eid : Rat) =
        (failCountTest cutoff rows eid : Rat) / (totalRunsTest cutoff rows eid : Rat) := by
      field_simp
      linarith [hc2]
    have hLiff : isFlakySummary cutoff rows eid = true ↔
        (3 ≤ totalRunsTest cutoff rows eid ∧
          FLAKY_TEST_THRESHOLD ≤
            (failCountTest cutoff rows eid : Rat) / (totalRunsTest cutoff rows eid : Rat)) := by
      rw [isFlakySummary, Bool.and_eq_true, decide_eq_true_iff, decide_eq_true_iff, key]
      exact and_comm
    cases hb : selectedByFlakyTests cutoff rows eid with
    | true => exact hLiff.mpr (hiff.mp hb)
    | false =>
      cases hc : isFlakySummary cutoff rows eid with
      | false => rfl
      | true =>
        rw [← hb]
        exact (hiff.mpr (hLiff.mp hc)).symm

/-- C10 witness input: a test with one pass and two failures, no warn. -/
def noWarnRows : List TestRun :=
  [⟨"t", "n", "tbl", "sch", TStatus.pass, 1⟩, ⟨"t", "n", "tbl", "sch", TStatus.fail, 2⟩,
   ⟨"t", "n", "tbl", "sch", TStatus.fail, 3⟩]

/-- C10 witness: on a warn-free input the two flaky flags coincide. -/
theorem flaky_summary_eq_selection_no_warn_witness :
    isFlakySummary 0 noWarnRows "t" = selectedByFlakyTests 0 noWarnRows "t" :=
  flaky_summary_eq_selection_no_warn 0 noWarnRows "t" (by decide) (by decide)

/-! ### Anomaly Classifier, slow models (`models_service.get_models_summary`)

The window function `AVG(execution_time) OVER (PARTITION BY unique_id)`
averages the non-null execution times of all in-window rows of a model,
whatever their status; `PERCENTILE_CONT(0.9)` interpolates linearly over the
multiset of per-model averages and is NULL on an empty multiset.  The
`show_all` branch coalesces the NULL percentile to 999999. -/

/-- Insert a value into an ascending-sorted list of rationals. -/
def insertSorted (x : Rat) : List Rat → List Rat
  | [] => [x]
  | y :: ys => if x ≤ y then x :: y :: ys else y :: insertSorted x ys

/-- Ascending sort, the `WITHIN GROUP (ORDER BY ...)` ordering. -/
def sortAsc (l : List Rat) : List Rat := l.foldr insertSorted []

/-- `PERCENTILE_CONT(0.9)`: NULL on an empty multiset, otherwise linear
interpolation between the order statistics at the fractional rank
`0.9 * (n - 1)`. -/
def percentileCont90 (vs : List Rat) : Option Rat :=
  match vs with
  | [] => none
  | _ :: _ =>
    let s := sortAsc vs
    let m : Nat := vs.length - 1
    let idx : Nat := 9 * m / 10
    let lo := s.getD idx 0
    let hi := s.getD (idx + 1) lo
    some (lo + (((9 * m : Nat) : Rat) / 10 - (idx : Rat)) * (hi - lo))

/-- The non-null execution times of one model's in-window rows (the values
`AVG` aggregates over). -/
def timedVals (cutoff : Int) (rows : List ModelRun) (eid : String) : List Rat :=
  (modelRowsFor cutoff rows eid).filterMap (fun r => r.execution_time)

/-- `AVG(execution_time) OVER (PARTITION BY unique_id)`: NULL when every
execution time of the partition is NULL. -/
def avgExecTime (cutoff : Int) (rows : List ModelRun) (eid : String) : Option Rat :=
  if timedVals cutoff rows eid = [] then none
  else some ((timedVals cutoff rows eid).sum / ((timedVals cutoff rows eid).length : Rat))

/-- The distinct model ids of the window (`GROUP BY unique_id`). -/
def entityIds (cutoff : Int) (rows : List ModelRun) : List String :=
  ((windowModel cutoff rows).map (fun r => r.unique_id)).dedup

/-- The multiset of per-model averages fed to `PERCENTILE_CONT` (models whose
average is NULL are ignored by the percentile). -/
def entityAvgs (cutoff : Int) (rows : List ModelRun) : List Rat :=
  (entityIds cutoff rows).filterMap (fun eid => avgExecTime cutoff rows eid)

/-- The `percentiles` CTE of `get_models_summary` (no COALESCE). -/
def p90Cont (cutoff : Int) (rows : List ModelRun) : Option Rat :=
  percentileCont90 (entityAvgs cutoff rows)

/-- `CASE WHEN ms.avg_execution_time > p.p90 THEN TRUE ELSE FALSE END`; a NULL
average or NULL percentile compares to NULL, which the CASE turns into FALSE. -/
def is_slow (cutoff : Int) (rows : List ModelRun) (eid : String) : Bool :=
  match avgExecTime cutoff rows eid, p90Cont cutoff rows with
  | some a, some p => decide (p < a)
  | _, _ => false

/-- `COALESCE(PERCENTILE_CONT(0.9) WITHIN GROUP (...), 999999)` of the
`show_all` branch. -/
def p90ShowAll (cutoff : Int) (rows : List ModelRun) : Rat :=
  (p90Cont cutoff rows).getD 999999

/-- The `is_slow` column of the `show_all` branch (models without runs have a
NULL average, hence FALSE). -/
def isSlowShowAll (cutoff : Int) (rows : List ModelRun) (eid : String) : Bool :=
  match avgExecTime cutoff rows eid with
  | some a => decide (p90ShowAll cutoff rows < a)
  | none => false

/-- `config.SLOW_MODEL_MIN_SECONDS` (60); defined in `config.py` but never
referenced by any query. -/
def SLOW_MODEL_MIN_SECONDS : Rat := 60

/-- Modelled from the spec: the spec averages `execution_time_seconds` over
successful, timed records only, which no code under `src/` does; this
spec-side definition exists to state the C3 comparison. -/
def timedValsSuccess (cutoff : Int) (rows : List ModelRun) (eid : String) : List Rat :=
  ((modelRowsFor cutoff rows eid).filter (fun r => r.status == MStatus.success)).filterMap
    (fun r => r.execution_time)

/-- Modelled from the spec: mean of `timedValsSuccess`, NULL when empty. -/
def avgExecTimeSuccess (cutoff : Int) (rows : List ModelRun) (eid : String) : Option Rat :=
  if timedValsSuccess cutoff rows eid = [] then none
  else some ((timedValsSuccess cutoff rows eid).sum /
    ((timedValsSuccess cutoff rows eid).length : Rat))

/-- The continuous 90th percentile of a single value is that value. -/
theorem percentileCont90_singleton (a : Rat) : percentileCont90 [a] = some a := by
  show some _ = some a
  norm_num [sortAsc, insertSorted]

/-- A model with a non-NULL average contributes it to the percentile input. -/
theorem avg_mem_entityAvgs (cutoff : Int) (rows : List ModelRun) (eid : String) (a : Rat)
    (h : avgExecTime cutoff rows eid = some a) : a ∈ entityAvgs cutoff rows := by
  have hne : timedVals cutoff rows eid ≠ [] := by
    intro h0
    rw [avgExecTime, if_pos h0] at h
    cases h
  obtain ⟨v, hv⟩ := List.exists_mem_of_ne_nil _ hne
  rw [timedVals, List.mem_filterMap] at hv
  obtain ⟨r, hr, _⟩ := hv
  rw [modelRowsFor, List.mem_filter] at hr
  have hrid : r.unique_id = eid := by simpa using hr.2
  have hid : eid ∈ entityIds cutoff rows := by
    rw [entityIds, List.mem_dedup, List.mem_map]
    exact ⟨r, hr.1, hrid⟩
  rw [entityAvgs, List.mem_filterMap]
  exact ⟨eid, hid, h⟩

/-! ### Claim C7: fewer than two timed models classify nothing as slow -/

/-- C7: when fewer than two models have timed data in the window, the slow
classification of both query branches marks no model slow: the percentile is
NULL (coalesced to 999999 in the `show_all` branch) with zero timed models,
and with one it equals that model's own average, which never exceeds itself. -/
theorem no_slow_when_few_timed :
    ∀ (cutoff : Int) (rows : List ModelRun),
      (entityAvgs cutoff rows).length < 2 →
      ∀ eid : String,
        is_slow cutoff rows eid = false ∧ isSlowShowAll cutoff rows eid = false := by
  intro cutoff rows hlen eid
  cases hE : entityAvgs cutoff rows with
  | nil =>
    have hnone : avgExecTime cutoff rows eid = none := by
      cases ha : avgExecTime cutoff rows eid with
      | none => rfl
      | some a =>
        have hm := avg_mem_entityAvgs cutoff rows eid a ha
        rw [hE] at hm
        cases hm
    constructor
    · simp only [is_slow, hnone]
    · simp only [isSlowShowAll, hnone]
  | cons a t =>
    cases t with
    | nil =>
      have hp : p90Cont cutoff rows = some a := by
        rw [p90Cont, hE]
        exact percentileCont90_singleton a
      constructor
      · cases ha : avgExecTime cutoff rows eid with
        | none => simp only [is_slow, ha]
        | some b =>
          have hm := avg_mem_entityAvgs cutoff rows eid b ha
          rw [hE] at hm
          have hb : b = a := by simpa using hm
          simp only [is_slow, ha, hp, hb]
          simp [lt_irrefl]
      · cases ha : avgExecTime cutoff rows eid with
        | none => simp only [isSlowShowAll, ha]
        | some b =>
          have hm := avg_mem_entityAvgs cutoff rows eid b ha
          rw [hE] at hm
          have hb : b = a := by simpa using hm
          simp only [isSlowShowAll, ha, hb, p90ShowAll, hp, Option.getD_some]
          simp [lt_irrefl]
    | cons b t2 =>
      rw [hE] at hlen
      simp only [List.length_cons] at hlen
      omega

/-- C7 witness input: one timed model and one untimed model. -/
def fewTimedRows : List ModelRun :=
  [⟨"m1", "model", MStatus.success, some 5, 0⟩, ⟨"m2", "model", MStatus.fail, none, 0⟩]

/-- C7 witness: with a single timed model neither query branch flags either
model as slow. -/
theorem no_slow_when_few_timed_witness :
    (entityAvgs 0 fewTimedRows).length < 2 ∧
    is_slow 0 fewTimedRows "m1" = false ∧ isSlowShowAll 0 fewTimedRows "m2" = false := by
  have hlen : (entityAvgs 0 fewTimedRows).length < 2 := by decide
  exact ⟨hlen, (no_slow_when_few_timed 0 fewTimedRows hlen "m1").1,
    (no_slow_when_few_timed 0 fewTimedRows hlen "m2").2⟩

/-! ### Claim C3: the slow classification has no 60-second floor and averages
over records of every status -/

/-- C3 counterexample input: model a has a successful 2s run and a failed 18s
run; models b and c average 1s. -/
def slowRows : List ModelRun :=
  [⟨"a", "model", MStatus.success, some 2, 1⟩,
   ⟨"a", "model", MStatus.fail, some 18, 2⟩,
   ⟨"b", "model", MStatus.success, some 1, 1⟩,
   ⟨"c", "model", MStatus.success, some 1, 1⟩]

/-- Window average of model a in the C3 counterexample: (2 + 18) / 2 = 10. -/
theorem slowRows_avg_a : avgExecTime 0 slowRows "a" = some 10 := by
  have htv : timedVals 0 slowRows "a" = [2, 18] := rfl
  rw [avgExecTime, if_neg (by rw [htv]; simp), htv]
  norm_num

/-- Window average of model b in the C3 counterexample. -/
theorem slowRows_avg_b : avgExecTime 0 slowRows "b" = some 1 := by
  have htv : timedVals 0 slowRows "b" = [1] := rfl
  rw [avgExecTime, if_neg (by rw [htv]; simp), htv]
  norm_num

/-- Window average of model c in the C3 counterexample. -/
theorem slowRows_avg_c : avgExecTime 0 slowRows "c" = some 1 := by
  have htv : timedVals 0 slowRows "c" = [1] := rfl
  rw [avgExecTime, if_neg (by rw [htv]; simp), htv]
  norm_num

/-- Percentile input of the C3 counterexample. -/
theorem slowRows_avgs : entityAvgs 0 slowRows = [10, 1, 1] := by
  have hids : entityIds 0 slowRows = ["a", "b", "c"] := rfl
  rw [entityAvgs, hids]
  simp only [List.filterMap_cons, List.filterMap_nil,
    slowRows_avg_a, slowRows_avg_b, slowRows_avg_c]

/-- Interpolated p90 of the C3 counterexample: rank 0.9 * 2 = 1.8 between the
order statistics 1 and 10 gives 41/5 = 8.2. -/
theorem slowRows_p90 : p90Cont 0 slowRows = some (41 / 5) := by
  rw [p90Cont, slowRows_avgs]
  have hs : sortAsc [10, 1, 1] = [1, 1, 10] := by
    norm_num [sortAsc, insertSorted]
  show some _ = some (41 / 5 : Rat)
  rw [hs]
  norm_num

/-- C3 counterexample: model a is classified slow although its window average
is 10 seconds, far below the claimed 60-second floor, and although its
spec-side successful-only average would be 2 seconds; the code applies no
floor and averages over failed runs too. -/
theorem slow_floor_counterexample :
    is_slow 0 slowRows "a" = true ∧
    avgExecTime 0 slowRows "a" = some 10 ∧
    avgExecTimeSuccess 0 slowRows "a" = some 2 ∧
    ¬ (SLOW_MODEL_MIN_SECONDS ≤ (10 : Rat)) := by
  refine ⟨?_, slowRows_avg_a, ?_, by norm_num [SLOW_MODEL_MIN_SECONDS]⟩
  · simp only [is_slow, slowRows_avg_a, slowRows_p90]
    rw [decide_eq_true_iff]
    norm_num
  · have htv : timedValsSuccess 0 slowRows "a" = [2] := rfl
    rw [avgExecTimeSuccess, if_neg (by rw [htv]; simp), htv]
    norm_num

/-- C3 amended: a model is classified slow iff both its window average (over
non-null execution times of runs of any status) and the interpolated p90 are
non-NULL and the average strictly exceeds the p90; no absolute floor is
applied, and a model with no timed record is never slow. -/
theorem is_slow_iff_avg_gt_p90 :
    ∀ (cutoff : Int) (rows : List ModelRun) (eid : String),
      (is_slow cutoff rows eid = true ↔
        ∃ a p, avgExecTime cutoff rows eid = some a ∧
          p90Cont cutoff rows = some p ∧ p < a) ∧
      (timedVals cutoff rows eid = [] → is_slow cutoff rows eid = false) := by
  intro cutoff rows eid
  constructor
  · cases ha : avgExecTime cutoff rows eid with
    | none => simp [is_slow, ha]
    | some a =>
      cases hp : p90Cont cutoff rows with
      | none => simp [is_slow, ha, hp]
      | some p => simp [is_slow, ha, hp]
  · intro h0
    have hnone : avgExecTime cutoff rows eid = none := by
      rw [avgExecTime, if_pos h0]
    simp only [is_slow, hnone]

/-- C3 witness: a model absent from the window has no timed records and is not
classified slow. -/
theorem is_slow_iff_avg_gt_p90_witness :
    is_slow 0 slowRows "zz" = false :=
  (is_slow_iff_avg_gt_p90 0 slowRows "zz").2 rfl

/-! ### Trend Engine (`growth._get_growth_summary`)

`latest` keeps the rank-1 row under `ORDER BY run_started_at DESC`,
`earliest` the rank-1 row under ascending order; `change_pct` is the CASE
expression guarded by `earliest_row_count > 0`. -/

/-- The in-window `ROW_COUNT_LOG` rows of one model. -/
def rcRowsFor (cutoff : Int) (rows : List RowCountRow) (name : String) : List RowCountRow :=
  (windowRowCounts cutoff rows).filter (fun r => r.model_name == name)

/-- The `latest` CTE's rank-1 row for a model. -/
def latestRowCount (cutoff : Int) (rows : List RowCountRow) (name : String) : Option RowCountRow :=
  rank1Desc (fun r => r.run_started_at) (rcRowsFor cutoff rows name)

/-- The `earliest` CTE's rank-1 row for a model. -/
def earliestRowCount (cutoff : Int) (rows : List RowCountRow) (name : String) : Option RowCountRow :=
  rank1Asc (fun r => r.run_started_at) (rcRowsFor cutoff rows name)

/-- `CASE WHEN e.earliest_row_count > 0 THEN ((l.row_count -
e.earliest_row_count) / e.earliest_row_count) * 100 ELSE NULL END`; a model
absent from `latest` has no output row at all, modelled as `none`. -/
def changePct (cutoff : Int) (rows : List RowCountRow) (name : String) : Option Rat :=
  match latestRowCount cutoff rows name, earliestRowCount cutoff rows name with
  | some l, some e =>
    if 0 < e.row_count then
      some ((((l.row_count : Rat) - (e.row_count : Rat)) / (e.row_count : Rat)) * 100)
    else none
  | some _, none => none
  | none, _ => none

/-! ### Claim C4: the change percentage formula and its null policy -/

/-- C4: `change_pct` is the relative change times 100 when the earliest count
is positive, NULL when the earliest count is zero or absent, and exactly 0
when the two counts coincide and are nonzero (counts are nonnegative). -/
theorem change_pct_spec :
    ∀ (cutoff : Int) (rows : List RowCountRow) (name : String),
      (∀ l e : RowCountRow, latestRowCount cutoff rows name = some l →
        earliestRowCount cutoff rows name = some e →
        ((0 < e.row_count → changePct cutoff rows name =
            some ((((l.row_count : Rat) - (e.row_count : Rat)) / (e.row_count : Rat)) * 100)) ∧
         (e.row_count = 0 → changePct cutoff rows name = none) ∧
         (l.row_count = e.row_count → e.row_count ≠ 0 → 0 ≤ e.row_count →
            changePct cutoff rows name = some 0))) ∧
      (latestRowCount cutoff rows name = none → changePct cutoff rows name = none) ∧
      (earliestRowCount cutoff rows name = none → changePct cutoff rows name = none) := by
  intro cutoff rows name
  refine ⟨?_, ?_, ?_⟩
  · intro l e hl he
    refine ⟨?_, ?_, ?_⟩
    · intro hpos
      simp only [changePct, hl, he, if_pos hpos]
    · intro h0
      simp only [changePct, hl, he]
      rw [if_neg (by omega)]
    · intro heq hne hge
      have hpos : 0 < e.row_count := by omega
      simp only [changePct, hl, he, if_pos hpos, heq]
      norm_num
  · intro hn
    simp only [changePct, hn]
  · intro hn
    cases hl : latestRowCount cutoff rows name with
    | none => simp only [changePct, hl]
    | some l => simp only [changePct, hl, hn]

/-- Earliest observation of the C4 witness input. -/
def growthRowEarly : RowCountRow := ⟨"m", "d", "s", 100, 0⟩

/-- Latest observation of the C4 witness input. -/
def growthRowLate : RowCountRow := ⟨"m", "d", "s", 150, 10⟩

/-- C4 witness input: 100 rows at time 0, 150 rows at time 10. -/
def growthRows : List RowCountRow := [growthRowEarly, growthRowLate]

/-- C4 witness: growing from 100 to 150 rows yields a +50 percent change. -/
theorem change_pct_spec_witness :
    changePct 0 growthRows "m" = some 50 := by
  have h := ((change_pct_spec 0 growthRows "m").1 growthRowLate growthRowEarly
    (by decide) (by decide)).1 (by decide)
  rw [h]
  norm_num [growthRowLate, growthRowEarly]

/-! ### Claim C6: a single observation yields a fabricated 0 percent -/

/-- C6 counterexample input: one observation of 100 rows. -/
def singleObsRow : RowCountRow := ⟨"m", "d", "s", 100, 0⟩

/-- C6 counterexample: a model with a single in-window observation gets
`change_pct = 0` (latest and earliest are the same row), not the claimed
"no trend" outcome. -/
theorem single_observation_counterexample :
    rcRowsFor 0 [singleObsRow] "m" = [singleObsRow] ∧
    changePct 0 [singleObsRow] "m" = some 0 := by
  refine ⟨rfl, ?_⟩
  have hl : latestRowCount 0 [singleObsRow] "m" = some singleObsRow := rfl
  have he : earliestRowCount 0 [singleObsRow] "m" = some singleObsRow := rfl
  simp only [changePct, hl, he]
  rw [if_pos (by decide)]
  norm_num

/-- C6 amended: a model with exactly one in-window observation is reported
with `change_pct = 0` when its count is positive and with a NULL change when
its count is zero; the code never produces a distinct "not enough data"
outcome for it. -/
theorem change_pct_single_observation :
    ∀ (cutoff : Int) (rows : List RowCountRow) (name : String) (r : RowCountRow),
      rcRowsFor cutoff rows name = [r] →
      changePct cutoff rows name = if 0 < r.row_count then some 0 else none := by
  intro cutoff rows name r h1
  have hl : latestRowCount cutoff rows name = some r := by
    rw [latestRowCount, h1]
    rfl
  have he : earliestRowCount cutoff rows name = some r := by
    rw [earliestRowCount, h1]
    rfl
  simp only [changePct, hl, he]
  by_cases hpos : 0 < r.row_count
  · rw [if_pos hpos, if_pos hpos]
    norm_num
  · rw [if_neg hpos, if_neg hpos]

/-- Zero-count single observation for the C6 witness. -/
def singleObsZeroRow : RowCountRow := ⟨"z", "d", "s", 0, 0⟩

/-- C6 witness: a single zero-count observation yields a NULL change. -/
theorem change_pct_single_observation_witness :
    changePct 0 [singleObsZeroRow] "z" = none := by
  have h := change_pct_single_observation 0 [singleObsZeroRow] "z" singleObsZeroRow rfl
  rw [h, if_neg (by decide)]

/-! ### Invocation Timeline Builder (`runs._render_waterfall_chart`)

Rows with both execute timestamps become timeline entries; offsets are taken
against the invocation's `run_started_at` (falling back to the minimum start);
`parallelism = total_time / max_end if max_end > 0 else 1`. -/

/-- A row of `get_invocation_models` (columns used by the waterfall). -/
structure InvocationRun where
  unique_id : String
  name : String
  status : MStatus
  execution_time : Option Rat
  execute_started_at : Option Rat
  execute_completed_at : Option Rat
  deriving DecidableEq, Repr

/-- One bar of the waterfall chart. -/
structure TimelineEntry where
  name : String
  status : MStatus
  execution_time : Option Rat
  startAt : Rat
  endAt : Rat
  deriving DecidableEq, Repr

/-- Binary maximum written with an if so that it evaluates by reduction. -/
def qmax (a b : Rat) : Rat := if a ≤ b then b else a

/-- Binary minimum written with an if so that it evaluates by reduction. -/
def qmin (a b : Rat) : Rat := if a ≤ b then a else b

/-- `timing_df`: rows with both `execute_started_at` and
`execute_completed_at` non-null. -/
def timedEntries (runs : List InvocationRun) : List TimelineEntry :=
  runs.filterMap (fun r =>
    match r.execute_started_at, r.execute_completed_at with
    | some s, some e => some ⟨r.name, r.status, r.execution_time, s, e⟩
    | _, _ => none)

/-- `timing_df["START"].min()`, used as fallback reference zero. -/
def minStart (es : List TimelineEntry) : Rat :=
  match es with
  | [] => 0
  | x :: xs => xs.foldl (fun b e => qmin b e.startAt) x.startAt

/-- The reference zero: `run_started_at`, or the minimum start when absent. -/
def refZero (runStartedAt : Option Rat) (es : List TimelineEntry) : Rat :=
  match runStartedAt with
  | some t => t
  | none => minStart es

/-- `END_SEC`: each entry's completion offset from the reference zero. -/
def endOffsets (runStartedAt : Option Rat) (es : List TimelineEntry) : List Rat :=
  es.map (fun e => e.endAt - refZero runStartedAt es)

/-- `max_end = timing_df["END_SEC"].max()`. -/
def maxEndSec (runStartedAt : Option Rat) (es : List TimelineEntry) : Rat :=
  match endOffsets runStartedAt es with
  | [] => 0
  | x :: xs => xs.foldl qmax x

/-- `total_time = timing_df["EXECUTION_TIME"].sum()` (nulls skipped). -/
def totalCpuSeconds (es : List TimelineEntry) : Rat :=
  (es.filterMap (fun e => e.execution_time)).sum

/-- `parallelism = total_time / max_end if max_end > 0 else 1`. -/
def parallelism (runStartedAt : Option Rat) (runs : List InvocationRun) : Rat :=
  if 0 < maxEndSec runStartedAt (timedEntries runs) then
    totalCpuSeconds (timedEntries runs) / maxEndSec runStartedAt (timedEntries runs)
  else 1

theorem le_qmax_left (a b : Rat) : a ≤ qmax a b := by
  by_cases h : a ≤ b
  · rw [qmax, if_pos h]
    exact h
  · rw [qmax, if_neg h]

theorem le_qmax_right (a b : Rat) : b ≤ qmax a b := by
  by_cases h : a ≤ b
  · rw [qmax, if_pos h]
  · rw [qmax, if_neg h]
    exact (not_le.mp h).le

theorem qmax_choice (a b : Rat) : qmax a b = a ∨ qmax a b = b := by
  by_cases h : a ≤ b
  · right
    rw [qmax, if_pos h]
  · left
    rw [qmax, if_neg h]

theorem foldl_qmax_le (l : List Rat) : ∀ b : Rat, ∀ x ∈ b :: l, x ≤ l.foldl qmax b := by
  induction l with
  | nil =>
    intro b x hx
    rw [List.mem_singleton] at hx
    subst hx
    exact le_refl _
  | cons y ys ih =>
    intro b x hx
    rw [List.foldl_cons]
    rw [List.mem_cons] at hx
    rcases hx with rfl | hx
    · exact le_trans (le_qmax_left x y) (ih (qmax x y) _ (List.mem_cons_self _ _))
    · rw [List.mem_cons] at hx
      rcases hx with rfl | hx
      · exact le_trans (le_qmax_right b x) (ih (qmax b x) _ (List.mem_cons_self _ _))
      · exact ih (qmax b y) x (List.mem_cons_of_mem _ hx)

theorem foldl_qmax_mem (l : List Rat) : ∀ b : Rat, l.foldl qmax b ∈ b :: l := by
  induction l with
  | nil =>
    intro b
    simp
  | cons y ys ih =>
    intro b
    rw [List.foldl_cons]
    have h := ih (qmax b y)
    rw [List.mem_cons] at h
    rcases h with h | h
    · rcases qmax_choice b y with hc | hc
      · rw [h, hc]
        exact List.mem_cons_self _ _
      · rw [h, hc]
        exact List.mem_cons_of_mem _ (List.mem_cons_self _ _)
    · exact List.mem_cons_of_mem _ (List.mem_cons_of_mem _ h)

/-! ### Claim C5: the parallelism ratio and its zero-wall guard -/

/-- C5: on a non-empty set of timed entries the parallelism equals total cpu
seconds over wall seconds when the wall is positive and is defined as 1 when
the wall is zero, where the wall is the maximum end offset (an attained upper
bound of the offsets) and the cpu total the sum of non-null execution times. -/
theorem parallelism_spec :
    ∀ (runStartedAt : Option Rat) (runs : List InvocationRun),
      timedEntries runs ≠ [] →
      ((0 < maxEndSec runStartedAt (timedEntries runs) →
          parallelism runStartedAt runs =
            totalCpuSeconds (timedEntries runs) / maxEndSec runStartedAt (timedEntries runs)) ∧
       (maxEndSec runStartedAt (timedEntries runs) = 0 →
          parallelism runStartedAt runs = 1) ∧
       (∀ x ∈ endOffsets runStartedAt (timedEntries runs),
          x ≤ maxEndSec runStartedAt (timedEntries runs)) ∧
       maxEndSec runStartedAt (timedEntries runs) ∈
         endOffsets runStartedAt (timedEntries runs)) := by
  intro rsa runs hne
  have hoff : endOffsets rsa (timedEntries runs) ≠ [] := by
    rw [endOffsets]
    intro h
    exact hne (List.map_eq_nil_iff.mp h)
  refine ⟨?_, ?_, ?_, ?_⟩
  · intro hpos
    rw [parallelism, if_pos hpos]
  · intro h0
    rw [parallelism, if_neg (by rw [h0]; exact lt_irrefl 0)]
  · intro x hx
    cases hoffs : endOffsets rsa (timedEntries runs) with
    | nil =>
      rw [hoffs] at hx
      cases hx
    | cons y ys =>
      have hm : maxEndSec rsa (timedEntries runs) = ys.foldl qmax y := by
        rw [maxEndSec, hoffs]
      rw [hm]
      rw [hoffs] at hx
      exact foldl_qmax_le ys y x hx
  · cases hoffs : endOffsets rsa (timedEntries runs) with
    | nil => exact absurd hoffs hoff
    | cons y ys =>
      have hm : maxEndSec rsa (timedEntries runs) = ys.foldl qmax y := by
        rw [maxEndSec, hoffs]
      rw [hm]
      exact foldl_qmax_mem ys y

/-- First run of the C5 witness invocation (10s, from 0 to 10). -/
def wfRun1 : InvocationRun := ⟨"u1", "n1", MStatus.success, some 10, some 0, some 10⟩

/-- Second run of the C5 witness invocation (20s, from 10 to 30). -/
def wfRun2 : InvocationRun := ⟨"u2", "n2", MStatus.success, some 20, some 10, some 30⟩

/-- Third run of the C5 witness invocation (30s, from 30 to 60). -/
def wfRun3 : InvocationRun := ⟨"u3", "n3", MStatus.success, some 30, some 30, some 60⟩

/-- C5 witness invocation: three back-to-back runs of 10s, 20s and 30s. -/
def wfRuns : List InvocationRun := [wfRun1, wfRun2, wfRun3]

/-- C5 witness: back-to-back runs of 10, 20 and 30 seconds against a wall of
60 seconds give parallelism 1. -/
theorem parallelism_spec_witness :
    parallelism (some 0) wfRuns = 1 := by
  have hes : timedEntries wfRuns =
      [⟨"n1", MStatus.success, some 10, 0, 10⟩,
       ⟨"n2", MStatus.success, some 20, 10, 30⟩,
       ⟨"n3", MStatus.success, some 30, 30, 60⟩] := rfl
  have hoffs : endOffsets (some 0) (timedEntries wfRuns) = [10, 30, 60] := by
    rw [endOffsets, hes]
    simp only [refZero, List.map_cons, List.map_nil]
    norm_num
  have hmax : maxEndSec (some 0) (timedEntries wfRuns) = 60 := by
    rw [maxEndSec, hoffs]
    simp only [List.foldl_cons, List.foldl_nil]
    norm_num [qmax]
  have hcpu : totalCpuSeconds (timedEntries wfRuns) = 60 := by
    rw [totalCpuSeconds, hes]
    simp only [List.filterMap_cons, List.filterMap_nil]
    norm_num
  have h := (parallelism_spec (some 0) wfRuns (by decide)).1 (by rw [hmax]; norm_num)
  rw [h, hcpu, hmax]
  norm_num

/-! ### Fetch failures (`database.run_query` and the page helpers)

`database.run_query` executes the query with no exception handling, so the
service-layer functions (`alerts_service`, `tests_service`, `models_service`,
`runs_service`, `metrics_service`) propagate a failing fetch unchanged.  The
growth page helpers wrap their fetch in try/except: `_get_growth_summary`
falls back to running the trivial query `SELECT 1 WHERE FALSE` (an empty
result when the store can still answer), `_get_growth_count` returns 0.  A
failing fetch is modelled as `Except.error`; a query is a fetch plus the pure
in-database reduction. -/

/-- `database.run_query`: no retry, no exception handling. -/
def run_query {E α : Type} (res : Except E α) : Except E α := res

/-- `alerts_service.get_current_test_failures` at the fetch level: the failing
test ids computed from a successful fetch, the store's failure otherwise. -/
def getCurrentTestFailuresExc {E : Type} (cutoff : Int)
    (fetch : Except E (List TestRun)) : Except E (List String) :=
  Except.map (fun rows =>
    (((windowTest cutoff rows).map (fun r => r.test_unique_id)).dedup).filter
      (fun eid => isCurrentlyFailingTest cutoff rows eid)) (run_query fetch)

/-- `tests_service.get_flaky_tests` at the fetch level. -/
def getFlakyTestsExc {E : Type} (cutoff : Int)
    (fetch : Except E (List TestRun)) : Except E (List String) :=
  Except.map (fun rows =>
    (((windowTest cutoff rows).map (fun r => r.test_unique_id)).dedup).filter
      (fun eid => selectedByFlakyTests cutoff rows eid)) (run_query fetch)

/-- `growth._get_growth_summary`'s try/except: on failure it runs the trivial
fallback query instead of surfacing the error. -/
def getGrowthSummaryFetch {E : Type}
    (primary fallback : Except E (List RowCountRow)) : Except E (List RowCountRow) :=
  match run_query primary with
  | Except.ok d => Except.ok d
  | Except.error _ => run_query fallback

/-- `growth._get_growth_count`'s try/except: on failure it returns 0. -/
def getGrowthCountFetch {E : Type} (primary : Except E Nat) : Nat :=
  match run_query primary with
  | Except.ok n => n
  | Except.error _ => 0

/-! ### Claim C9: not every analytic function surfaces fetch failures -/

/-- C9 counterexample: when the store rejects the query, the growth summary
helper substitutes the fallback's empty result and the growth count helper
returns 0; both suppress the failure instead of surfacing it, refuting the
claim that every core analytic function surfaces fetch failures. -/
theorem growth_fetch_suppression_counterexample :
    getGrowthSummaryFetch (Except.error "SQL compilation error")
      (Except.ok ([] : List RowCountRow)) = Except.ok [] ∧
    getGrowthCountFetch (Except.error "SQL compilation error" : Except String Nat) = 0 :=
  ⟨rfl, rfl⟩

/-- C9 amended: the service-layer analytics propagate a failing fetch
unchanged, but the growth page helpers suppress it: `_get_growth_summary`
answers with its fallback query's outcome and `_get_growth_count` with 0. -/
theorem fetch_failure_propagation :
    ∀ {E : Type} (cutoff : Int) (e : E) (fallback : Except E (List RowCountRow)),
      getCurrentTestFailuresExc cutoff (Except.error e) = Except.error e ∧
      getFlakyTestsExc cutoff (Except.error e) = Except.error e ∧
      getGrowthSummaryFetch (Except.error e) fallback = fallback ∧
      getGrowthCountFetch (Except.error e : Except E Nat) = 0 := by
  intro E cutoff e fallback
  exact ⟨rfl, rfl, rfl, rfl⟩

end DbtObs
